import Mathlib

/-!
Verification of the TCP transport binding of the doip-sockets repository.

The development shallowly embeds the two TcpStream implementations of the
repository (src/tcp.rs, namespace tcp below, and src/tcp/tcp_stream.rs,
namespace tcp_stream below).  The external collaborators (the doip codec and
the tokio framed transport) are modelled by explicit state: a raw stream
carries the decoded items the codec will yield on the read side and the
messages written on the write side, and the framed wrapper adds the codec
buffers.  Transport and codec outcomes that the environment decides (the
result of an asynchronous connect or of a framed write) are passed to the
embedded operations as explicit arguments.
-/

namespace DoipSockets

/-- Payload type discriminants of the external doip_definitions crate
(header::PayloadType), the tag the admission check inspects. -/
inductive PayloadType where
  | GenericNack
  | VehicleIdentificationRequest
  | VehicleIdentificationRequestEid
  | VehicleIdentificationRequestVin
  | VehicleAnnouncementMessage
  | RoutingActivationRequest
  | RoutingActivationResponse
  | AliveCheckRequest
  | AliveCheckResponse
  | EntityStatusRequest
  | EntityStatusResponse
  | PowerInformationRequest
  | PowerInformationResponse
  | DiagnosticMessage
  | DiagnosticMessageAck
  | DiagnosticMessageNack
  deriving DecidableEq

/-- Protocol versions of the external doip_definitions crate (header::DoipVersion). -/
inductive DoipVersion where
  | Iso13400_2010
  | Iso13400_2012
  | ReservedVer
  | DefaultValue
  deriving DecidableEq

/-- A payload value together with its discriminant (a DoipPayload trait object
of the external doip_definitions crate, abstracted as its discriminant and its
encoded body bytes). -/
structure PayloadData where
  payload_type : PayloadType
  body : List Nat
  deriving DecidableEq

/-- The DoIP header fields the core inspects: the stamped protocol version and
the payload type discriminant. -/
structure DoipHeader where
  protocol_version : DoipVersion
  payload_type : PayloadType
  deriving DecidableEq

/-- A full DoIP message: header plus payload (external doip_definitions type). -/
structure DoipMessage where
  header : DoipHeader
  payload : PayloadData
  deriving DecidableEq

/-- DoipMessage::new of the external doip_definitions crate: builds the header
from the given protocol version and the discriminant of the given payload. -/
def DoipMessage.new (protocol_version : DoipVersion) (payload : PayloadData) : DoipMessage :=
  { header := { protocol_version := protocol_version,
                payload_type := payload.payload_type },
    payload := payload }

/-- A platform io error value (std::io::Error), abstracted as its code. -/
structure IoErr where
  code : Nat
  deriving DecidableEq

/-- Decode failures of the external doip_codec crate. -/
inductive DecodeError where
  | malformedFrame
  | unsupportedLength
  | ioFailure (e : IoErr)
  deriving DecidableEq

/-- Failures surfaced by the framed sink of the external codec: either a codec
encode diagnostic or a transport level write failure (the framed sink error
type must absorb io errors, so both arrive through the same channel). -/
inductive CodecError where
  | encodeFailure (diag : Nat)
  | ioFailure (e : IoErr)
  deriving DecidableEq

/-- Modelled from the spec: error.rs of this repository is not under src.  Its
two variants are visible at the use sites in tcp.rs and tcp/tcp_stream.rs, and
the spec requires the admission failure to be a typed error distinct from the
encode/transport errors. -/
inductive SocketSendError where
  | InvalidTcpPayload
  | EncodeError (e : CodecError)
  deriving DecidableEq

/-- Whether a send error is the encode error kind. -/
def SocketSendError.isEncodeKind : SocketSendError → Bool
  | SocketSendError.EncodeError _ => true
  | _ => false

/-- The underlying duplex TCP stream (tokio::net::TcpStream): the decoded items
the wire still holds for the read direction, and the trace of messages whose
bytes were written on the write direction. -/
structure RawStream where
  rx : List (Except DecodeError DoipMessage)
  tx : List DoipMessage

/-- The framed wrapper (tokio_util Framed over the doip codec): the underlying
stream plus the codec buffers for each direction. -/
structure Framed where
  inner : RawStream
  readBuf : List Nat
  writeBuf : List Nat

/-- Framed::new: fresh framing state over a stream, both buffers empty. -/
def Framed.new (stream : RawStream) : Framed :=
  { inner := stream, readBuf := [], writeBuf := [] }

/-- A completed framed write: the encoded message reaches the wire trace. -/
def Framed.sendMsg (f : Framed) (msg : DoipMessage) : Framed :=
  { f with inner := { f.inner with tx := f.inner.tx ++ [msg] } }

/-- StreamExt::next on the framed stream: yields the next decoded item, or none
once the stream is exhausted (orderly end of stream). -/
def Framed.next (f : Framed) : Option (Except DecodeError DoipMessage) × Framed :=
  match f.inner.rx with
  | [] => (none, f)
  | item :: rest => (some item, { f with inner := { f.inner with rx := rest } })

/-- Framed::into_inner: returns the underlying stream; the codec buffers of the
framed wrapper (bytes received but not yet decoded) are discarded. -/
def Framed.into_inner (f : Framed) : RawStream := f.inner

/-- The read half of a split raw stream (tokio::io::split). -/
structure RawReadHalf where
  rx : List (Except DecodeError DoipMessage)

/-- The write half of a split raw stream (tokio::io::split). -/
structure RawWriteHalf where
  tx : List DoipMessage

/-- tokio::io::split: the two directions of the duplex stream, disjoint state. -/
def ioSplit (stream : RawStream) : RawReadHalf × RawWriteHalf :=
  ({ rx := stream.rx }, { tx := stream.tx })

/-- FramedRead state: the raw read half plus the decode buffer. -/
structure FramedRead where
  inner : RawReadHalf
  readBuf : List Nat

/-- FramedRead::new: fresh framing over the read half, empty decode buffer. -/
def FramedRead.new (r : RawReadHalf) : FramedRead :=
  { inner := r, readBuf := [] }

/-- FramedWrite state: the raw write half plus the encode buffer. -/
structure FramedWrite where
  inner : RawWriteHalf
  writeBuf : List Nat

/-- FramedWrite::new: fresh framing over the write half, empty encode buffer. -/
def FramedWrite.new (w : RawWriteHalf) : FramedWrite :=
  { inner := w, writeBuf := [] }

/-- Modelled from the spec: the SocketConfig declaration lives in the tcp
module root, which is not under src; the spec describes it as a small
immutable value holding the protocol version stamped on outgoing messages. -/
structure SocketConfig where
  protocol_version : DoipVersion
  deriving DecidableEq

namespace tcp

/-- The TcpStream of src/tcp.rs: a framed stream, no configuration field. -/
structure TcpStream where
  io : Framed

/-- TcpStream::new of src/tcp.rs: wraps an already framed stream. -/
def TcpStream.new (io : Framed) : TcpStream :=
  { io := io }

/-- TcpStream::apply_codec of src/tcp.rs: fresh framing over a raw stream. -/
def TcpStream.apply_codec (stream : RawStream) : TcpStream :=
  { io := Framed.new stream }

/-- TcpStream::connect of src/tcp.rs, over the outcome the transport connect
produced: success wraps the stream via apply_codec, failure propagates the
io error unchanged. -/
def TcpStream.connect (outcome : Except IoErr RawStream) : Except IoErr TcpStream :=
  match outcome with
  | Except.ok stream => Except.ok (TcpStream.apply_codec stream)
  | Except.error err => Except.error err

/-- TcpStream::is_valid_payload of src/tcp.rs: the TCP admission table over
payload type discriminants. -/
def TcpStream.is_valid_payload (_s : TcpStream) (payload_type : PayloadType) : Bool :=
  match payload_type with
  | PayloadType.GenericNack => true
  | PayloadType.VehicleAnnouncementMessage => true
  | PayloadType.RoutingActivationRequest => true
  | PayloadType.RoutingActivationResponse => true
  | PayloadType.AliveCheckRequest => true
  | PayloadType.AliveCheckResponse => true
  | PayloadType.DiagnosticMessage => true
  | PayloadType.DiagnosticMessageAck => true
  | PayloadType.DiagnosticMessageNack => true
  | _ => false

/-- TcpStream::send of src/tcp.rs: checks the admission table on the message
discriminant before any io; if admissible, performs the framed write, whose
environment decided outcome is the ioOutcome argument, wrapping a failure in
the EncodeError kind. -/
def TcpStream.send (s : TcpStream) (msg : DoipMessage)
    (ioOutcome : Except CodecError Unit) : Except SocketSendError Unit × TcpStream :=
  match s.is_valid_payload msg.header.payload_type with
  | true =>
    match ioOutcome with
    | Except.ok _ => (Except.ok (), { s with io := s.io.sendMsg msg })
    | Except.error err => (Except.error (SocketSendError.EncodeError err), s)
  | false => (Except.error SocketSendError.InvalidTcpPayload, s)

/-- TcpStream::read of src/tcp.rs: self.io.next(). -/
def TcpStream.read (s : TcpStream) : Option (Except DecodeError DoipMessage) × TcpStream :=
  match s.io.next with
  | (item, io2) => (item, { s with io := io2 })

end tcp

namespace tcp_stream

/-- The TcpStream of src/tcp/tcp_stream.rs: a framed stream plus the socket
configuration. -/
structure TcpStream where
  io : Framed
  config : SocketConfig

/-- TcpStream::new of src/tcp/tcp_stream.rs: wraps an existing tokio stream in
fresh framing and defaults the configuration to Iso13400_2012. -/
def TcpStream.new (io : RawStream) : TcpStream :=
  { io := Framed.new io,
    config := { protocol_version := DoipVersion.Iso13400_2012 } }

/-- TcpStream::apply_codec of src/tcp/tcp_stream.rs: fresh framing and the
default configuration. -/
def TcpStream.apply_codec (stream : RawStream) : TcpStream :=
  { io := Framed.new stream,
    config := { protocol_version := DoipVersion.Iso13400_2012 } }

/-- TcpStream::connect of src/tcp/tcp_stream.rs, over the outcome the
transport connect produced: success wraps via apply_codec, failure propagates
the io error unchanged (no retries: one outcome maps to one result). -/
def TcpStream.connect (outcome : Except IoErr RawStream) : Except IoErr TcpStream :=
  match outcome with
  | Except.ok stream => Except.ok (TcpStream.apply_codec stream)
  | Except.error err => Except.error err

/-- TcpStream::send of src/tcp/tcp_stream.rs: builds the message by pairing
the configured protocol version with the payload, then performs the framed
write; its failure is wrapped in the EncodeError kind.  The admission policy
here is a compile time trait bound (DoipTcpPayload) on the payload argument,
not a runtime check. -/
def TcpStream.send (s : TcpStream) (payload : PayloadData)
    (ioOutcome : Except CodecError Unit) : Except SocketSendError Unit × TcpStream :=
  let msg := DoipMessage.new s.config.protocol_version payload
  match ioOutcome with
  | Except.ok _ => (Except.ok (), { s with io := s.io.sendMsg msg })
  | Except.error err => (Except.error (SocketSendError.EncodeError err), s)

/-- TcpStream::read of src/tcp/tcp_stream.rs: self.io.next(). -/
def TcpStream.read (s : TcpStream) : Option (Except DecodeError DoipMessage) × TcpStream :=
  match s.io.next with
  | (item, io2) => (item, { s with io := io2 })

/-- TcpStream::from_std of src/tcp/tcp_stream.rs, over the outcome of the
platform stream conversion: success applies the codec, failure propagates the
conversion error unchanged; no other failure path exists. -/
def TcpStream.from_std (conversion : Except IoErr RawStream) : Except IoErr TcpStream :=
  match conversion with
  | Except.ok stream => Except.ok (TcpStream.apply_codec stream)
  | Except.error err => Except.error err

/-- The read half produced by into_split (declared in tcp_split.rs). -/
structure TcpStreamReadHalf where
  io : FramedRead
  config : Option SocketConfig

/-- Modelled from the spec: tcp_split.rs of this repository is not under src.
Its constructor, as called from into_split, stores the framed read half
together with the optional configuration copy. -/
def TcpStreamReadHalf.new (io : FramedRead) (config : Option SocketConfig) :
    TcpStreamReadHalf :=
  { io := io, config := config }

/-- Modelled from the spec: the read half read operation has the identical
contract to the wrapper read, on the read direction only. -/
def TcpStreamReadHalf.read (rh : TcpStreamReadHalf) :
    Option (Except DecodeError DoipMessage) × TcpStreamReadHalf :=
  match rh.io.inner.rx with
  | [] => (none, rh)
  | item :: rest =>
    (some item, { rh with io := { rh.io with inner := { rx := rest } } })

/-- The write half produced by into_split (declared in tcp_split.rs). -/
structure TcpStreamWriteHalf where
  io : FramedWrite
  config : Option SocketConfig

/-- Modelled from the spec: tcp_split.rs of this repository is not under src.
Its constructor, as called from into_split, stores the framed write half
together with the optional configuration copy. -/
def TcpStreamWriteHalf.new (io : FramedWrite) (config : Option SocketConfig) :
    TcpStreamWriteHalf :=
  { io := io, config := config }

/-- TcpStream::into_split of src/tcp/tcp_stream.rs: recovers the raw stream
via into_inner (dropping the codec buffers), splits it, and builds fresh
framed halves, each given a copy of the configuration. -/
def TcpStream.into_split (s : TcpStream) : TcpStreamReadHalf × TcpStreamWriteHalf :=
  let stream := s.io.into_inner
  let halves := ioSplit stream
  let read := FramedRead.new halves.1
  let write := FramedWrite.new halves.2
  (TcpStreamReadHalf.new read (some s.config),
   TcpStreamWriteHalf.new write (some s.config))

end tcp_stream

/-- Claim C1: a payload whose discriminant is outside the TCP admissible set
makes send fail with the typed InvalidTcpPayload admission error before any
io: the result is independent of the framed write outcome, the stream state
is unchanged (no bytes written, framing state intact), and the admission
error kind is distinct from the encode error kind. -/
theorem C1_send_inadmissible_rejected (s : tcp.TcpStream) (msg : DoipMessage)
    (ioOutcome : Except CodecError Unit)
    (h : s.is_valid_payload msg.header.payload_type = false) :
    tcp.TcpStream.send s msg ioOutcome =
      (Except.error SocketSendError.InvalidTcpPayload, s) ∧
    ∀ e : CodecError,
      SocketSendError.InvalidTcpPayload ≠ SocketSendError.EncodeError e := by
  refine ⟨?_, ?_⟩
  · simp only [tcp.TcpStream.send, h]
  · intro e contra
    cases contra

/-- Witness for C1 at a concrete input: a vehicle identification request is
inadmissible and is rejected without touching the stream. -/
theorem C1_send_inadmissible_rejected_witness :
    tcp.TcpStream.send
        { io := Framed.new { rx := [], tx := [] } }
        (DoipMessage.new DoipVersion.Iso13400_2012
          { payload_type := PayloadType.VehicleIdentificationRequest, body := [] })
        (Except.ok ()) =
      (Except.error SocketSendError.InvalidTcpPayload,
        { io := Framed.new { rx := [], tx := [] } }) ∧
    ∀ e : CodecError,
      SocketSendError.InvalidTcpPayload ≠ SocketSendError.EncodeError e :=
  C1_send_inadmissible_rejected
    { io := Framed.new { rx := [], tx := [] } }
    (DoipMessage.new DoipVersion.Iso13400_2012
      { payload_type := PayloadType.VehicleIdentificationRequest, body := [] })
    (Except.ok ()) rfl

/-- Claim C2: the TCP admission check is a function of the discriminant
alone (the stream argument is arbitrary on the left and absent on the right),
true exactly on the nine listed discriminants and false on every other,
vehicle identification request and response included. -/
theorem C2_admission_table_characterization :
    ∀ (s : tcp.TcpStream) (pt : PayloadType),
      s.is_valid_payload pt = true ↔
        (pt = PayloadType.GenericNack ∨
         pt = PayloadType.VehicleAnnouncementMessage ∨
         pt = PayloadType.RoutingActivationRequest ∨
         pt = PayloadType.RoutingActivationResponse ∨
         pt = PayloadType.AliveCheckRequest ∨
         pt = PayloadType.AliveCheckResponse ∨
         pt = PayloadType.DiagnosticMessage ∨
         pt = PayloadType.DiagnosticMessageAck ∨
         pt = PayloadType.DiagnosticMessageNack) := by
  intro s pt
  cases pt <;> simp [tcp.TcpStream.is_valid_payload]

/-- Counterexample to claim C3 as stated: at the concrete stream and payload
below, a transport level write failure (an io failure surfaced by the framed
sink) and a codec encode failure are both wrapped in the same
SocketSendError.EncodeError kind, so the transport failure is not surfaced as
an error kind distinguishable from a codec encode failure. -/
theorem C3_transport_error_not_distinct_counterexample :
    (tcp_stream.TcpStream.send
        { io := Framed.new { rx := [], tx := [] },
          config := { protocol_version := DoipVersion.Iso13400_2012 } }
        { payload_type := PayloadType.DiagnosticMessage, body := [] }
        (Except.error (CodecError.ioFailure { code := 5 }))).1 =
      Except.error (SocketSendError.EncodeError (CodecError.ioFailure { code := 5 })) ∧
    (tcp_stream.TcpStream.send
        { io := Framed.new { rx := [], tx := [] },
          config := { protocol_version := DoipVersion.Iso13400_2012 } }
        { payload_type := PayloadType.DiagnosticMessage, body := [] }
        (Except.error (CodecError.encodeFailure 7))).1 =
      Except.error (SocketSendError.EncodeError (CodecError.encodeFailure 7)) ∧
    SocketSendError.isEncodeKind
      (SocketSendError.EncodeError (CodecError.ioFailure { code := 5 })) = true ∧
    SocketSendError.isEncodeKind
      (SocketSendError.EncodeError (CodecError.encodeFailure 7)) = true :=
  ⟨rfl, rfl, rfl, rfl⟩

/-- Claim C3 as amended: every failure of the framed write during send is
propagated to the immediate caller wrapped unchanged in the single
EncodeError kind — transport write failures and codec encode failures alike —
and that kind is distinct from the admission error kind. -/
theorem C3_send_failure_propagation :
    (∀ (s : tcp_stream.TcpStream) (p : PayloadData) (e : CodecError),
        tcp_stream.TcpStream.send s p (Except.error e) =
          (Except.error (SocketSendError.EncodeError e), s)) ∧
    (∀ e : CodecError,
        SocketSendError.EncodeError e ≠ SocketSendError.InvalidTcpPayload) := by
  refine ⟨fun _ _ _ => rfl, ?_⟩
  intro e contra
  cases contra

/-- Claim C4: send constructs the outgoing message by pairing the protocol
version of the configuration with the given payload; the message appended to
the wire trace on a successful write carries exactly the configured version. -/
theorem C4_send_stamps_config_version :
    ∀ (s : tcp_stream.TcpStream) (p : PayloadData),
      (tcp_stream.TcpStream.send s p (Except.ok ())).2.io.inner.tx =
        s.io.inner.tx ++ [DoipMessage.new s.config.protocol_version p] ∧
      (DoipMessage.new s.config.protocol_version p).header.protocol_version =
        s.config.protocol_version :=
  fun s p => ⟨rfl, rfl⟩

/-- Claim C5: connect returns on success a wrapper with fresh framing state
(empty codec buffers over the connected stream) and the configuration
defaulted to Iso13400_2012, and on failure the underlying transport error
unchanged; a single transport outcome maps to a single result, no retries. -/
theorem C5_connect_spec :
    (∀ stream : RawStream,
        tcp_stream.TcpStream.connect (Except.ok stream) =
          Except.ok { io := Framed.new stream,
                      config := { protocol_version := DoipVersion.Iso13400_2012 } }) ∧
    (∀ err : IoErr,
        tcp_stream.TcpStream.connect (Except.error err) = Except.error err) :=
  ⟨fun _ => rfl, fun _ => rfl⟩

/-- Claim C6: into_split consumes the wrapper into exactly one read half and
one write half, each carrying a copy of the same configuration value the
wrapper held, and neither send nor read ever changes the configuration after
construction. -/
theorem C6_split_config_propagation :
    ∀ (s : tcp_stream.TcpStream),
      (tcp_stream.TcpStream.into_split s).1.config = some s.config ∧
      (tcp_stream.TcpStream.into_split s).2.config = some s.config ∧
      (∀ (p : PayloadData) (r : Except CodecError Unit),
        (tcp_stream.TcpStream.send s p r).2.config = s.config) ∧
      (tcp_stream.TcpStream.read s).2.config = s.config := by
  intro s
  refine ⟨rfl, rfl, ?_, ?_⟩
  · intro p r
    cases r <;> rfl
  · simp only [tcp_stream.TcpStream.read, Framed.next]

/-- Claim C7: read yields one of three constructor distinguishable outcomes —
none on orderly end of stream (distinct from every error), a decoded message,
or a decode error; after a decode error the remaining items stay queued, so
nothing prevents subsequent reads on the same stream. -/
theorem C7_read_outcomes (s : tcp_stream.TcpStream) :
    (s.io.inner.rx = [] → tcp_stream.TcpStream.read s = (none, s)) ∧
    (∀ item rest, s.io.inner.rx = item :: rest →
        tcp_stream.TcpStream.read s =
          (some item,
            { s with io := { s.io with inner := { s.io.inner with rx := rest } } })) ∧
    (∀ e : DecodeError,
        (none : Option (Except DecodeError DoipMessage)) ≠ some (Except.error e)) := by
  refine ⟨?_, ?_, ?_⟩
  · intro h
    simp [tcp_stream.TcpStream.read, Framed.next, h]
  · intro item rest h
    simp [tcp_stream.TcpStream.read, Framed.next, h]
  · intro e contra
    cases contra

/-- Witness for C7 at a concrete input: a malformed frame error is yielded and
the stream state keeps the following item available for the next read. -/
theorem C7_read_outcomes_witness :
    tcp_stream.TcpStream.read
        { io := Framed.new
            { rx := [Except.error DecodeError.malformedFrame,
                     Except.ok (DoipMessage.new DoipVersion.Iso13400_2012
                       { payload_type := PayloadType.DiagnosticMessage, body := [1] })],
              tx := [] },
          config := { protocol_version := DoipVersion.Iso13400_2012 } } =
      (some (Except.error DecodeError.malformedFrame),
        { io := { inner :=
                    { rx := [Except.ok (DoipMessage.new DoipVersion.Iso13400_2012
                        { payload_type := PayloadType.DiagnosticMessage, body := [1] })],
                      tx := [] },
                  readBuf := [], writeBuf := [] },
          config := { protocol_version := DoipVersion.Iso13400_2012 } }) :=
  (C7_read_outcomes
      { io := Framed.new
          { rx := [Except.error DecodeError.malformedFrame,
                   Except.ok (DoipMessage.new DoipVersion.Iso13400_2012
                     { payload_type := PayloadType.DiagnosticMessage, body := [1] })],
            tx := [] },
        config := { protocol_version := DoipVersion.Iso13400_2012 } }).2.1
    (Except.error DecodeError.malformedFrame)
    [Except.ok (DoipMessage.new DoipVersion.Iso13400_2012
      { payload_type := PayloadType.DiagnosticMessage, body := [1] })]
    rfl

/-- Claim C8: reads never filter by discriminant — the next item the codec
yields is returned to the caller unchanged by the wrapper read of both
implementations and by the read half, so a successfully decoded message is
returned even when its discriminant is TCP inadmissible for sending. -/
theorem C8_read_no_admission_filter :
    (∀ (s : tcp_stream.TcpStream) item rest, s.io.inner.rx = item :: rest →
        (tcp_stream.TcpStream.read s).1 = some item) ∧
    (∀ (s : tcp.TcpStream) item rest, s.io.inner.rx = item :: rest →
        (tcp.TcpStream.read s).1 = some item) ∧
    (∀ (rh : tcp_stream.TcpStreamReadHalf) item rest, rh.io.inner.rx = item :: rest →
        (tcp_stream.TcpStreamReadHalf.read rh).1 = some item) := by
  refine ⟨?_, ?_, ?_⟩
  · intro s item rest h
    simp [tcp_stream.TcpStream.read, Framed.next, h]
  · intro s item rest h
    simp [tcp.TcpStream.read, Framed.next, h]
  · intro rh item rest h
    simp [tcp_stream.TcpStreamReadHalf.read, h]

/-- Witness for C8 at a concrete input: an inbound vehicle identification
request — inadmissible for sending over TCP — is nonetheless returned by
read. -/
theorem C8_read_no_admission_filter_witness :
    (tcp_stream.TcpStream.read
        { io := Framed.new
            { rx := [Except.ok (DoipMessage.new DoipVersion.Iso13400_2012
                { payload_type := PayloadType.VehicleIdentificationRequest, body := [] })],
              tx := [] },
          config := { protocol_version := DoipVersion.Iso13400_2012 } }).1 =
      some (Except.ok (DoipMessage.new DoipVersion.Iso13400_2012
        { payload_type := PayloadType.VehicleIdentificationRequest, body := [] })) :=
  C8_read_no_admission_filter.1
    { io := Framed.new
        { rx := [Except.ok (DoipMessage.new DoipVersion.Iso13400_2012
            { payload_type := PayloadType.VehicleIdentificationRequest, body := [] })],
          tx := [] },
      config := { protocol_version := DoipVersion.Iso13400_2012 } }
    (Except.ok (DoipMessage.new DoipVersion.Iso13400_2012
      { payload_type := PayloadType.VehicleIdentificationRequest, body := [] }))
    [] rfl

/-- Claim C9: the wrapping constructors perform no network io — new and the
successful from_std return a wrapper whose underlying stream is the given one
untouched under fresh framing; from_std fails only when the platform
conversion fails and then propagates that error unchanged; new is total; both
fix the configuration version to Iso13400_2012 for every input, there being no
parameter to choose another. -/
theorem C9_wrap_constructors :
    (∀ stream : RawStream,
        tcp_stream.TcpStream.new stream =
          { io := Framed.new stream,
            config := { protocol_version := DoipVersion.Iso13400_2012 } }) ∧
    (∀ stream : RawStream,
        tcp_stream.TcpStream.from_std (Except.ok stream) =
          Except.ok { io := Framed.new stream,
                      config := { protocol_version := DoipVersion.Iso13400_2012 } }) ∧
    (∀ err : IoErr,
        tcp_stream.TcpStream.from_std (Except.error err) = Except.error err) :=
  ⟨fun _ => rfl, fun _ => rfl, fun _ => rfl⟩

/-- Claim C10: into_split rebuilds framing from scratch over the raw halves of
the underlying stream: both halves start with empty codec buffers, and the
split result does not depend on the decode buffer of the wrapper — bytes
received but not yet returned by read are discarded at the split. -/
theorem C10_split_fresh_buffers :
    ∀ (s : tcp_stream.TcpStream),
      (tcp_stream.TcpStream.into_split s).1.io =
        FramedRead.new { rx := s.io.inner.rx } ∧
      (tcp_stream.TcpStream.into_split s).2.io =
        FramedWrite.new { tx := s.io.inner.tx } ∧
      (tcp_stream.TcpStream.into_split s).1.io.readBuf = [] ∧
      (tcp_stream.TcpStream.into_split s).2.io.writeBuf = [] ∧
      (∀ buf : List Nat,
        tcp_stream.TcpStream.into_split { s with io := { s.io with readBuf := buf } } =
          tcp_stream.TcpStream.into_split s) :=
  fun _ => ⟨rfl, rfl, rfl, rfl, fun _ => rfl⟩

end DoipSockets
